import Mathlib

/-!
Shallow embedding of the order validation and scheduling engine of the
lepanivore website backend (src/back/src/domain/order/order.ts) and of the
closing-period factory (closing-period.ts), together with proofs about the
frozen claims on this code.

Conventions of the embedding:
* JavaScript `Date` values are modelled by `LePanivore.Date`: a calendar day
  index (`day`, counted from an epoch chosen so that `day % 7` is the
  JavaScript weekday number, 0 = Sunday .. 6 = Saturday) plus the number of
  milliseconds elapsed since that day's midnight (`msOfDay`).
* The ambient clock (`getCurrentDateAtCanadaEasternTimeZone()` / `new Date()`,
  both of which the repository's test suite pins to one mocked instant) is an
  explicit `now : Date` parameter.
* Thrown errors become `Except` / explicit error components; the literal
  message templates become constructors of `OrderErrorMessage` carrying the
  interpolated values.
* `updateWith` mutates the receiving object field by field; it is embedded as
  state passing returning the (possibly partially updated) order together
  with the error, if any, so that partial mutation is observable.
-/

namespace LePanivore

/-- A calendar instant. `day` counts calendar days from an epoch whose day 0 is
a Sunday, so `day % 7` is the JavaScript weekday number (0 = Sunday, 2 =
Tuesday, 4 = Thursday, 6 = Saturday). `msOfDay` is the number of milliseconds
since that day's midnight (intended below 86400000; no invariant is needed by
the code under study). -/
structure Date where
  day : Nat
  msOfDay : Nat
deriving DecidableEq, Repr

namespace Date

/-- JavaScript `Date.prototype.getDay`: the weekday number 0..6. -/
def getDay (d : Date) : Nat := d.day % 7

/-- JavaScript `Date.prototype.getHours`: the hour of day. -/
def getHours (d : Date) : Nat := d.msOfDay / 3600000

/-- JavaScript `Date.prototype.getTime`: milliseconds since the epoch. -/
def getTime (d : Date) : Nat := d.day * 86400000 + d.msOfDay

/-- JavaScript `d.setDate(d.getDate() + n)`: shift by `n` calendar days,
keeping the time of day. -/
def addDays (d : Date) (n : Nat) : Date := { d with day := d.day + n }

end Date

/-- Modelled from the spec: `date.utils.ts` is not among the files under
review. The spec describes this comparison as done "ignoring hours": a date on
today's calendar day at any hour is not before now, only strictly earlier
calendar days are. -/
def isFirstDateBeforeSecondDateIgnoringHours (a b : Date) : Bool :=
  a.day < b.day

/-- Modelled from the spec: `date.utils.ts` is not among the files under
review. The number of calendar days between the two dates, as used by the spec
for "falls within the next 6 days" and "at least N days after now". -/
def getNumberOfDaysBetweenFirstDateAndSecondDate (a b : Date) : Nat :=
  max a.day b.day - min a.day b.day

/-- Modelled from the spec: `date.constants.ts` is not among the files under
review; a week has seven days. -/
def NUMBER_OF_DAYS_IN_A_WEEK : Nat := 7

/-- One row of the pick-up lead-time lookup table
(order-pick-up-constraints.ts). -/
structure AvailableDayForAPickUpOrder where
  whenOrderIsPlacedOn : Nat
  firstAvailableDay : Nat
deriving DecidableEq, Repr

/-- Modelled from the spec: `order-pick-up-constraints.ts` is not among the
files under review. The spec's reference table gives Wednesday → Saturday,
Thursday/Friday/Saturday → Tuesday, and its Monday-placement scenario forces
Monday → Thursday; the repository's unit tests (order.spec.ts) pin the
remaining rows as Sunday → Tuesday and Tuesday → Thursday (the spec's
reference table states Tuesday → Saturday, which the tests contradict; no
frozen claim depends on that row's value). Weekday numbers: 0 = Sunday. -/
def AVAILABLE_DAYS_FOR_A_PICK_UP_ORDER : List AvailableDayForAPickUpOrder :=
  [⟨0, 2⟩, ⟨1, 4⟩, ⟨2, 4⟩, ⟨3, 6⟩, ⟨4, 2⟩, ⟨5, 2⟩, ⟨6, 2⟩]

/-- Modelled from the spec: Sunday and Monday are closing days. -/
def CLOSING_DAYS : List Nat := [0, 1]

/-- Modelled from the spec: the 19:00 cutoff after which a pick-up order is
treated as placed the following day. -/
def MAXIMUM_HOUR_TO_PLACE_A_PICK_UP_ORDER_BEFORE_BEING_CONSIDERED_AS_PLACED_THE_FOLLOWING_DAY : Nat := 19

/-- Modelled from the spec: delivery always happens Thursday (weekday 4). -/
def DELIVERY_DAY : Nat := 4

/-- Modelled from the spec: same-week delivery can be promised until Tuesday
(weekday 2) ... -/
def MAXIMUM_DAY_FOR_DELIVERY_SAME_WEEK : Nat := 2

/-- Modelled from the spec: ... at 19:00. -/
def MAXIMUM_HOUR_FOR_DELIVERY_SAME_WEEK : Nat := 19

/-- OrderType (order-type.ts): PICK_UP, DELIVERY, RESERVATION. -/
inductive OrderType
  | PICK_UP
  | DELIVERY
  | RESERVATION
deriving DecidableEq, Repr

/-- The literal InvalidUserError message. -/
inductive UserErrorMessage
  | reservationOrderTypeRequiresToBeAdmin
deriving DecidableEq, Repr

/-- The literal InvalidOrderError message templates of order.ts, with the
interpolated values carried structurally. -/
inductive OrderErrorMessage
  | clientNameHasToBeDefined
  | clientPhoneNumberHasToBeDefined
  | clientEmailAddressHasToBeDefined
  | invalidClientEmailAddress (address : String)
  | anOrderMustHaveAtLeastOneProduct
  | productQuantityHasToBePositive (quantity : Int)
  | productWithIdNotFound (productId : Int)
  | orderTypeHasToBeDefined
  | pickUpDateHasToBeDefined
  | pickUpDateHasToBeInTheFuture (d : Date)
  | pickUpDateHasToBeBetweenTuesdayAndSaturday (d : Date)
  | pickUpDateHasToBeOutsideClosingPeriods (d : Date)
  | pickUpDateCannotBeSameDayAsNow (d : Date)
  | pickUpDateHasToBeAtLeastDaysAfterNow (d : Date) (numberOfDays : Nat)
  | deliveryAddressHasToBeDefined
  | deliveryDateHasToBeDefined
  | deliveryDateHasToBeInTheFuture (d : Date)
  | deliveryDateHasToBeOutsideClosingPeriods (d : Date)
  | deliveryDateHasToBeAThursday (d : Date)
  | deliveryDateHasToBeOneOfTheNextAvailableThursday (d : Date)
  | reservationDateHasToBeDefined
  | reservationDateHasToBeInTheFuture (d : Date)
  | reservationDateHasToBeBetweenTuesdayAndSaturday (d : Date)
  | reservationDateHasToBeOutsideClosingPeriods (d : Date)
  | existingOrderIdDoesNotMatchCommandOrderId (existingId : Option Int) (commandId : Int)
deriving DecidableEq, Repr

/-- The two error families raised by the engine: InvalidOrderError (data
validity) and InvalidUserError (authorization). -/
inductive DomainError
  | invalidOrderError (message : OrderErrorMessage)
  | invalidUserError (message : UserErrorMessage)
deriving DecidableEq, Repr

/-- ProductInterface: the part of a catalog product the engine reads (`id`,
used for resolution) plus a representative payload field (the snapshot copies
the whole object). -/
structure ProductInterface where
  id : Int
  name : String
deriving DecidableEq, Repr

/-- ProductIdWithQuantity: a command line item. -/
structure ProductIdWithQuantity where
  productId : Int
  quantity : Int
deriving DecidableEq, Repr

/-- ProductWithQuantity: a resolved line item snapshot. -/
structure ProductWithQuantity where
  product : ProductInterface
  quantity : Int
deriving DecidableEq, Repr

/-- ClosingPeriodInterface: a start/end timestamp pair. -/
structure ClosingPeriodInterface where
  startDate : Date
  endDate : Date
deriving DecidableEq, Repr

/-- NewOrderCommand. Fields that JavaScript allows to be undefined are
`Option`s; `type` is `Option OrderType` (the source's "unknown order type"
string check is not representable once the enum is typed, and no claim
touches it). -/
structure NewOrderCommand where
  clientName : String
  clientPhoneNumber : String
  clientEmailAddress : String
  products : List ProductIdWithQuantity
  type : Option OrderType
  pickUpDate : Option Date
  deliveryDate : Option Date
  deliveryAddress : Option String
  reservationDate : Option Date
  note : Option String
deriving DecidableEq, Repr

/-- UpdateOrderCommand: like NewOrderCommand but with the target order id and
without contact details. -/
structure UpdateOrderCommand where
  orderId : Int
  products : List ProductIdWithQuantity
  type : Option OrderType
  pickUpDate : Option Date
  deliveryDate : Option Date
  deliveryAddress : Option String
  reservationDate : Option Date
  note : Option String
deriving DecidableEq, Repr

/-- The Order aggregate (order.ts fields). -/
structure Order where
  id : Option Int
  clientName : String
  clientPhoneNumber : String
  clientEmailAddress : String
  products : List ProductWithQuantity
  type : OrderType
  pickUpDate : Option Date
  deliveryDate : Option Date
  deliveryAddress : Option String
  reservationDate : Option Date
  note : Option String
deriving DecidableEq, Repr

/-! Email regular expression (order.ts line 37). The regex is anchored and has
the shape `^(local)@(domain)$` where the domain alternatives cannot contain
`@`; it therefore matches exactly when the string splits at some `@` into a
valid local part and a valid domain part, which is how it is embedded here. -/

/-- The characters excluded by the regex's atom character class
`[^<>()\[\]\\.,;:\s@"]` besides whitespace. -/
def emailSpecialChars : List Char :=
  ['<', '>', '(', ')', '[', ']', '\\', '.', ',', ';', ':', '@', '\"']

/-- One atom character of the local part: not a special and not whitespace
(JavaScript `\s`; `Char.isWhitespace` stands in for it). -/
def isEmailAtomChar (c : Char) : Bool :=
  !(emailSpecialChars.contains c) && !c.isWhitespace

/-- Split a character list on a separator; `n` separators yield `n + 1`
(possibly empty) parts. -/
def splitOnChar (sep : Char) : List Char → List (List Char)
  | [] => [[]]
  | c :: rest =>
    let parts := splitOnChar sep rest
    if c = sep then [] :: parts
    else
      match parts with
      | [] => [[c]]
      | p :: ps => (c :: p) :: ps

/-- A character matched by the regex metacharacter `.` (anything but a line
terminator). -/
def isRegexAnyChar (c : Char) : Bool :=
  c ≠ '\n' && c ≠ '\r' && c ≠ Char.ofNat 8232 && c ≠ Char.ofNat 8233

/-- The unquoted local-part alternative `atom+ ('.' atom)*`: splitting on '.'
yields only nonempty runs of atom characters. -/
def isDottedAtomList (l : List Char) : Bool :=
  (splitOnChar '.' l).all fun p => !p.isEmpty && p.all isEmailAtomChar

/-- The quoted local-part alternative `".+"`. -/
def isQuotedString (l : List Char) : Bool :=
  decide (3 ≤ l.length) && decide (l.head? = some '\"') &&
    decide (l.getLast? = some '\"') && ((l.drop 1).dropLast.all isRegexAnyChar)

/-- A valid local part (either alternative). -/
def isLocalPart (l : List Char) : Bool :=
  isDottedAtomList l || isQuotedString l

/-- A domain-label character `[a-zA-Z\-0-9]`. -/
def isLabelChar (c : Char) : Bool :=
  c.isAlpha || c.isDigit || c = '-'

/-- The named-host domain alternative `([a-zA-Z\-0-9]+\.)+[a-zA-Z]{2,}`. -/
def isDomainLabels (d : List Char) : Bool :=
  let parts := splitOnChar '.' d
  decide (2 ≤ parts.length) &&
    parts.dropLast.all (fun p => !p.isEmpty && p.all isLabelChar) &&
    (match parts.getLast? with
     | some lastPart => decide (2 ≤ lastPart.length) && lastPart.all Char.isAlpha
     | none => false)

/-- One dotted-quad component `[0-9]{1,3}`. -/
def isIpv4Part (p : List Char) : Bool :=
  decide (1 ≤ p.length) && decide (p.length ≤ 3) && p.all Char.isDigit

/-- The bracketed-IPv4 domain alternative. -/
def isBracketedIpv4 (d : List Char) : Bool :=
  match d with
  | '[' :: rest =>
    (match rest.getLast? with
     | some c =>
       decide (c = ']') &&
         (let parts := splitOnChar '.' rest.dropLast
          decide (parts.length = 4) && parts.all isIpv4Part)
     | none => false)
  | _ => false

/-- A valid domain part (either alternative). -/
def isDomainPart (d : List Char) : Bool :=
  isBracketedIpv4 d || isDomainLabels d

/-- All decompositions of a character list as `prefixPart ++ '@' :: suffixPart`
(`acc` holds the reversed prefix read so far). -/
def atSplits (acc : List Char) : List Char → List (List Char × List Char)
  | [] => []
  | c :: rest =>
    (if c = '@' then [(acc.reverse, rest)] else []) ++ atSplits (c :: acc) rest

/-- Order.EMAIL_REGEX.test, embedded as: some `@`-split of the string has a
valid local part and a valid domain part. -/
def emailRegexTest (s : String) : Bool :=
  (atSplits [] s.data).any fun pr => isLocalPart pr.1 && isDomainPart pr.2

/-! The validation functions of order.ts, in source order. Each static
`assertXxx` throws or returns; here it returns `Except DomainError`. -/

/-- assertClientNameIsValid (order.ts lines 75-79). -/
def assertClientNameIsValid (clientName : String) : Except DomainError Unit :=
  if clientName = "" then .error (.invalidOrderError .clientNameHasToBeDefined)
  else .ok ()

/-- assertClientPhoneNumberIsValid (order.ts lines 81-85). -/
def assertClientPhoneNumberIsValid (clientPhoneNumber : String) : Except DomainError Unit :=
  if clientPhoneNumber = "" then .error (.invalidOrderError .clientPhoneNumberHasToBeDefined)
  else .ok ()

/-- assertClientEmailAddressIsValid (order.ts lines 87-94). -/
def assertClientEmailAddressIsValid (clientEmailAddress : String) : Except DomainError Unit :=
  if clientEmailAddress = "" then .error (.invalidOrderError .clientEmailAddressHasToBeDefined)
  else if emailRegexTest clientEmailAddress then .ok ()
  else .error (.invalidOrderError (.invalidClientEmailAddress clientEmailAddress))

/-- assertTypeIsValid (order.ts lines 96-106). `none` stands for an undefined
type; it returns the parsed type for the later binding switch. -/
def assertTypeIsValid (type : Option OrderType) (isAdmin : Bool) : Except DomainError OrderType :=
  match type with
  | none => .error (.invalidOrderError .orderTypeHasToBeDefined)
  | some t =>
    if t = OrderType.RESERVATION ∧ isAdmin = false then
      .error (.invalidUserError .reservationOrderTypeRequiresToBeAdmin)
    else .ok t

/-- The quantity loop of assertProductsAreValid (order.ts lines 113-117): the
first quantity below 1 throws. -/
def checkQuantities : List ProductIdWithQuantity → Except DomainError Unit
  | [] => .ok ()
  | p :: rest =>
    if p.quantity < 1 then
      .error (.invalidOrderError (.productQuantityHasToBePositive p.quantity))
    else checkQuantities rest

/-- assertProductsAreValid (order.ts lines 108-118). -/
def assertProductsAreValid (products : List ProductIdWithQuantity) : Except DomainError Unit :=
  if products.isEmpty then .error (.invalidOrderError .anOrderMustHaveAtLeastOneProduct)
  else checkQuantities products

/-- The closingPeriods.forEach loops (order.ts lines 135-139, 189-193,
233-237): the first closing period containing the date (bounds inclusive, full
timestamp precision) throws, with the message selected by the caller. -/
def checkClosingPeriods (message : Date → OrderErrorMessage) (date : Date) :
    List ClosingPeriodInterface → Except DomainError Unit
  | [] => .ok ()
  | cp :: rest =>
    if cp.startDate.getTime ≤ date.getTime ∧ date.getTime ≤ cp.endDate.getTime then
      .error (.invalidOrderError (message date))
    else checkClosingPeriods message date rest

/-- assertPickUpDateIsValid (order.ts lines 120-141). -/
def assertPickUpDateIsValid (type : OrderType) (closingPeriods : List ClosingPeriodInterface)
    (pickUpDate : Option Date) (now : Date) : Except DomainError Unit :=
  if type = OrderType.PICK_UP then
    match pickUpDate with
    | none => .error (.invalidOrderError .pickUpDateHasToBeDefined)
    | some d =>
      if isFirstDateBeforeSecondDateIgnoringHours d now then
        .error (.invalidOrderError (.pickUpDateHasToBeInTheFuture d))
      else if CLOSING_DAYS.contains d.getDay then
        .error (.invalidOrderError (.pickUpDateHasToBeBetweenTuesdayAndSaturday d))
      else checkClosingPeriods .pickUpDateHasToBeOutsideClosingPeriods d closingPeriods
  else .ok ()

/-- assertDeliveryAddressIsValid (order.ts lines 172-176); lodash isEmpty
holds for undefined and for the empty string. -/
def assertDeliveryAddressIsValid (type : OrderType) (deliveryAddress : Option String) :
    Except DomainError Unit :=
  if type = OrderType.DELIVERY ∧ (deliveryAddress = none ∨ deliveryAddress = some "") then
    .error (.invalidOrderError .deliveryAddressHasToBeDefined)
  else .ok ()

/-- assertDeliveryDateIsValid (order.ts lines 178-199); note the Thursday
check comes after the closing-period loop. -/
def assertDeliveryDateIsValid (type : OrderType) (closingPeriods : List ClosingPeriodInterface)
    (deliveryDate : Option Date) (now : Date) : Except DomainError Unit :=
  if type = OrderType.DELIVERY then
    match deliveryDate with
    | none => .error (.invalidOrderError .deliveryDateHasToBeDefined)
    | some d =>
      if isFirstDateBeforeSecondDateIgnoringHours d now then
        .error (.invalidOrderError (.deliveryDateHasToBeInTheFuture d))
      else
        match checkClosingPeriods .deliveryDateHasToBeOutsideClosingPeriods d closingPeriods with
        | .error e => .error e
        | .ok _ =>
          if d.getDay ≠ DELIVERY_DAY then
            .error (.invalidOrderError (.deliveryDateHasToBeAThursday d))
          else .ok ()
  else .ok ()

/-- assertReservationDateIsValid (order.ts lines 218-239). -/
def assertReservationDateIsValid (type : OrderType) (closingPeriods : List ClosingPeriodInterface)
    (reservationDate : Option Date) (now : Date) : Except DomainError Unit :=
  if type = OrderType.RESERVATION then
    match reservationDate with
    | none => .error (.invalidOrderError .reservationDateHasToBeDefined)
    | some d =>
      if isFirstDateBeforeSecondDateIgnoringHours d now then
        .error (.invalidOrderError (.reservationDateHasToBeInTheFuture d))
      else if CLOSING_DAYS.contains d.getDay then
        .error (.invalidOrderError (.reservationDateHasToBeBetweenTuesdayAndSaturday d))
      else checkClosingPeriods .reservationDateHasToBeOutsideClosingPeriods d closingPeriods
  else .ok ()

/-- toProductWithQuantity (order.ts lines 241-248). -/
def toProductWithQuantity (productIdWithQuantity : ProductIdWithQuantity)
    (activeProducts : List ProductInterface) : Except DomainError ProductWithQuantity :=
  match activeProducts.find? (fun product => product.id == productIdWithQuantity.productId) with
  | none => .error (.invalidOrderError (.productWithIdNotFound productIdWithQuantity.productId))
  | some foundProduct => .ok { product := foundProduct, quantity := productIdWithQuantity.quantity }

/-- The products.map of bindProductSelection (order.ts lines 292-294):
left-to-right, the first unresolved id throws. -/
def mapProducts (activeProducts : List ProductInterface) :
    List ProductIdWithQuantity → Except DomainError (List ProductWithQuantity)
  | [] => .ok []
  | p :: rest =>
    match toProductWithQuantity p activeProducts with
    | .error e => .error e
    | .ok pw =>
      match mapProducts activeProducts rest with
      | .error e => .error e
      | .ok rest' => .ok (pw :: rest')

/-- bindProductSelection (order.ts lines 289-295): validate, then resolve; the
returned list is what gets assigned to `this.products`. -/
def bindProductSelection (products : List ProductIdWithQuantity)
    (activeProducts : List ProductInterface) : Except DomainError (List ProductWithQuantity) :=
  match assertProductsAreValid products with
  | .error e => .error e
  | .ok _ => mapProducts activeProducts products

/-- The cutoff shift of assertPickUpDateIsEqualOrAfterTheFirstAvailableDay
(order.ts lines 145-148): at or after 19:00 the mutable `now` copy is moved to
the following calendar day. -/
def effectiveNow (now : Date) : Date :=
  if MAXIMUM_HOUR_TO_PLACE_A_PICK_UP_ORDER_BEFORE_BEING_CONSIDERED_AS_PLACED_THE_FOLLOWING_DAY ≤ now.getHours
  then now.addDays 1 else now

/-- The AVAILABLE_DAYS_FOR_A_PICK_UP_ORDER.filter(...).map(...)[0] lookup
(order.ts lines 158-160); `[0]` of an empty array is undefined, hence
`Option`. -/
def lookupFirstAvailableDay (currentDay : Nat) : Option Nat :=
  ((AVAILABLE_DAYS_FOR_A_PICK_UP_ORDER.filter
      fun a => a.whenOrderIsPlacedOn == currentDay).map
    fun a => a.firstAvailableDay).head?

/-- The do-while body of getNextDateHavingDay (order.ts lines 252-254),
written with explicit fuel: add one day, exit when the weekday matches. -/
def nextDateLoop (day : Nat) : Nat → Date → Date
  | 0, d => d
  | fuel + 1, d =>
    let d' := d.addDays 1
    if d'.getDay = day then d' else nextDateLoop day fuel d'

/-- getNextDateHavingDay (order.ts lines 250-257), starting from the ambient
current date. Fuel 7 reproduces the JavaScript loop exactly whenever
`day < 7`, since the loop then exits within 7 iterations; for any other
argument (JavaScript undefined, when the table lookup found no row) the exit
condition never holds and the JavaScript loop never terminates. -/
def getNextDateHavingDay (now : Date) (day : Nat) : Date :=
  nextDateLoop day NUMBER_OF_DAYS_IN_A_WEEK now

/-- assertPickUpDateIsEqualOrAfterTheFirstAvailableDay (order.ts lines
143-170). The two `.ok ()` fallbacks mark paths the source cannot reach when
called after assertPickUpDateIsValid: an undefined pick-up date would fault in
JavaScript, and a missing table row would make getNextDateHavingDay loop
forever. -/
def assertPickUpDateIsEqualOrAfterTheFirstAvailableDay (type : OrderType)
    (pickUpDate : Option Date) (now : Date) : Except DomainError Unit :=
  if type = OrderType.PICK_UP then
    match pickUpDate with
    | none => .ok ()
    | some d =>
      let shiftedNow := effectiveNow now
      let numberOfDaysBetweenNowAndPickUpDate :=
        getNumberOfDaysBetweenFirstDateAndSecondDate shiftedNow d
      let currentDay := shiftedNow.getDay
      if numberOfDaysBetweenNowAndPickUpDate < NUMBER_OF_DAYS_IN_A_WEEK ∧ currentDay = d.getDay then
        .error (.invalidOrderError (.pickUpDateCannotBeSameDayAsNow d))
      else
        match lookupFirstAvailableDay currentDay with
        | none => .ok ()
        | some firstAvailableDay =>
          let firstAvailableDate := getNextDateHavingDay now firstAvailableDay
          if isFirstDateBeforeSecondDateIgnoringHours d firstAvailableDate then
            .error (.invalidOrderError (.pickUpDateHasToBeAtLeastDaysAfterNow d
              (getNumberOfDaysBetweenFirstDateAndSecondDate shiftedNow firstAvailableDate)))
          else .ok ()
  else .ok ()

/-- assertDeliveryDateIsEqualOrAfterTheFirstAvailableDay (order.ts lines
201-216); the `none` fallback is unreachable after assertDeliveryDateIsValid. -/
def assertDeliveryDateIsEqualOrAfterTheFirstAvailableDay (type : OrderType)
    (deliveryDate : Option Date) (now : Date) : Except DomainError Unit :=
  if type = OrderType.DELIVERY then
    match deliveryDate with
    | none => .ok ()
    | some d =>
      let numberOfDaysBetweenNowAndDeliveryDate :=
        getNumberOfDaysBetweenFirstDateAndSecondDate now d
      if (numberOfDaysBetweenNowAndDeliveryDate < NUMBER_OF_DAYS_IN_A_WEEK ∧
            now.getDay ≤ d.getDay) ∧
          (MAXIMUM_DAY_FOR_DELIVERY_SAME_WEEK < now.getDay ∨
            (now.getDay = MAXIMUM_DAY_FOR_DELIVERY_SAME_WEEK ∧
              MAXIMUM_HOUR_FOR_DELIVERY_SAME_WEEK ≤ now.getHours)) then
        .error (.invalidOrderError (.deliveryDateHasToBeOneOfTheNextAvailableThursday d))
      else .ok ()
  else .ok ()

/-- The outcome of bindOrderTypeSelection's assignments (order.ts lines
304-321): the type, and the date fields after the null-then-switch block. -/
structure OrderTypeSelection where
  type : OrderType
  pickUpDate : Option Date
  deliveryDate : Option Date
  deliveryAddress : Option String
  reservationDate : Option Date
deriving DecidableEq, Repr

/-- bindOrderTypeSelection (order.ts lines 297-322): the five asserts in
source order, then all date fields nulled and the one block matching the type
bound. All assignments happen after every assert has passed, so they are
returned as one value. -/
def bindOrderTypeSelection (type : Option OrderType) (pickUpDate deliveryDate : Option Date)
    (deliveryAddress : Option String) (reservationDate : Option Date)
    (closingPeriods : List ClosingPeriodInterface) (isAdmin : Bool) (now : Date) :
    Except DomainError OrderTypeSelection :=
  match assertTypeIsValid type isAdmin with
  | .error e => .error e
  | .ok t =>
    match assertPickUpDateIsValid t closingPeriods pickUpDate now with
    | .error e => .error e
    | .ok _ =>
      match assertDeliveryDateIsValid t closingPeriods deliveryDate now with
      | .error e => .error e
      | .ok _ =>
        match assertDeliveryAddressIsValid t deliveryAddress with
        | .error e => .error e
        | .ok _ =>
          match assertReservationDateIsValid t closingPeriods reservationDate now with
          | .error e => .error e
          | .ok _ =>
            .ok (match t with
              | OrderType.PICK_UP => ⟨t, pickUpDate, none, none, none⟩
              | OrderType.DELIVERY => ⟨t, none, deliveryDate, deliveryAddress, none⟩
              | OrderType.RESERVATION => ⟨t, none, none, none, reservationDate⟩)

/-- The order the constructor builds once every binding has succeeded
(order.ts lines 61-66): no id yet, contact details, resolved products, the
bound type selection and the note copied verbatim. -/
def builtOrder (command : NewOrderCommand) (products : List ProductWithQuantity)
    (sel : OrderTypeSelection) : Order :=
  { id := none
    clientName := command.clientName
    clientPhoneNumber := command.clientPhoneNumber
    clientEmailAddress := command.clientEmailAddress
    products := products
    type := sel.type
    pickUpDate := sel.pickUpDate
    deliveryDate := sel.deliveryDate
    deliveryAddress := sel.deliveryAddress
    reservationDate := sel.reservationDate
    note := command.note }

/-- bindContactDetails' assertion part (order.ts lines 280-282). -/
def bindContactDetails (command : NewOrderCommand) : Except DomainError Unit :=
  match assertClientNameIsValid command.clientName with
  | .error e => .error e
  | .ok _ =>
    match assertClientPhoneNumberIsValid command.clientPhoneNumber with
    | .error e => .error e
    | .ok _ => assertClientEmailAddressIsValid command.clientEmailAddress

/-- Order.factory.create, i.e. the constructor's fresh-order branch (order.ts
lines 60-72): contact details, product selection, type selection, note, and
for non-admins the two lead-time asserts (which receive the command's type and
dates, equal to the bound ones). -/
def Order.create (command : NewOrderCommand) (activeProducts : List ProductInterface)
    (closingPeriods : List ClosingPeriodInterface) (isAdmin : Bool) (now : Date) :
    Except DomainError Order :=
  match bindContactDetails command with
  | .error e => .error e
  | .ok _ =>
    match bindProductSelection command.products activeProducts with
    | .error e => .error e
    | .ok products =>
      match bindOrderTypeSelection command.type command.pickUpDate command.deliveryDate
          command.deliveryAddress command.reservationDate closingPeriods isAdmin now with
      | .error e => .error e
      | .ok sel =>
        if isAdmin then .ok (builtOrder command products sel)
        else
          match assertPickUpDateIsEqualOrAfterTheFirstAvailableDay sel.type
              command.pickUpDate now with
          | .error e => .error e
          | .ok _ =>
            match assertDeliveryDateIsEqualOrAfterTheFirstAvailableDay sel.type
                command.deliveryDate now with
            | .error e => .error e
            | .ok _ => .ok (builtOrder command products sel)

/-- updateWith (order.ts lines 259-268), embedded as state passing over the
mutated receiver: the id guard, then bindProductSelection (which assigns
`this.products` as soon as resolution succeeds), then bindOrderTypeSelection
with isAdmin hardcoded true (whose assignments all follow its asserts), then
the note. The returned order is the receiver's final state, alongside the
error if one was thrown. -/
def Order.updateWith (order : Order) (command : UpdateOrderCommand)
    (activeProducts : List ProductInterface) (closingPeriods : List ClosingPeriodInterface)
    (now : Date) : Order × Option DomainError :=
  if order.id ≠ some command.orderId then
    (order, some (.invalidOrderError
      (.existingOrderIdDoesNotMatchCommandOrderId order.id command.orderId)))
  else
    match bindProductSelection command.products activeProducts with
    | .error e => (order, some e)
    | .ok products =>
      let order1 := { order with products := products }
      match bindOrderTypeSelection command.type command.pickUpDate command.deliveryDate
          command.deliveryAddress command.reservationDate closingPeriods true now with
      | .error e => (order1, some e)
      | .ok sel =>
        ({ order1 with
            type := sel.type
            pickUpDate := sel.pickUpDate
            deliveryDate := sel.deliveryDate
            deliveryAddress := sel.deliveryAddress
            reservationDate := sel.reservationDate
            note := command.note }, none)

/-! ClosingPeriod (closing-period.ts, among the repository files under
review). -/

/-- NewClosingPeriodCommand. -/
structure NewClosingPeriodCommand where
  startDate : Option Date
  endDate : Option Date
deriving DecidableEq, Repr

/-- The literal InvalidClosingPeriodError messages. -/
inductive ClosingPeriodErrorMessage
  | startDateHasToBeDefined
  | startDateHasToBeInTheFuture
  | endDateHasToBeDefined
  | endDateHasToBeInTheFuture
  | endDateHasToBeGreaterThanStartDate
deriving DecidableEq, Repr

/-- The validated closing period the constructor stores. -/
structure ClosingPeriod where
  startDate : Date
  endDate : Date
deriving DecidableEq, Repr

/-- ClosingPeriod.isBeforeNowIgnoringHours: copy the date's time of day onto
now, then compare full timestamps. -/
def isBeforeNowIgnoringHours (date : Date) (now : Date) : Bool :=
  let nowAtDateHours : Date := { day := now.day, msOfDay := date.msOfDay }
  date.getTime < nowAtDateHours.getTime

/-- ClosingPeriod.factory.create: assertStartDateIsValid then
assertEndDateIsValid (defined, in the future ignoring hours, and the
end-before-start full-timestamp check), inlined in source order; on success
the command's dates are stored. -/
def ClosingPeriod.create (command : NewClosingPeriodCommand) (now : Date) :
    Except ClosingPeriodErrorMessage ClosingPeriod :=
  match command.startDate with
  | none => .error .startDateHasToBeDefined
  | some sd =>
    if isBeforeNowIgnoringHours sd now then .error .startDateHasToBeInTheFuture
    else
      match command.endDate with
      | none => .error .endDateHasToBeDefined
      | some ed =>
        if isBeforeNowIgnoringHours ed now then .error .endDateHasToBeInTheFuture
        else if ed.getTime < sd.getTime then .error .endDateHasToBeGreaterThanStartDate
        else .ok { startDate := sd, endDate := ed }

/-! Specification-side characterizations used to state the claims. -/

/-- The next calendar day strictly after `fromDay` whose weekday number is
`weekday`: an arithmetic closed form, proved below to be the day computed by
getNextDateHavingDay's loop. -/
def nextOccurrenceOfWeekday (fromDay weekday : Nat) : Nat :=
  fromDay + 1 + (weekday + 7 - (fromDay + 1) % 7) % 7

/-- The earliest pick-up weekday the lookup table allows for an order placed
on the given weekday (defaulting to 0 when the table has no row, which never
happens for a real weekday). -/
def firstAvailableWeekdayWhenPlacedOn (placedWeekday : Nat) : Nat :=
  (lookupFirstAvailableDay placedWeekday).getD 0

/-- The first line item of a command whose product id resolves to no active
product, if any. -/
def firstUnresolvedProduct (products : List ProductIdWithQuantity)
    (activeProducts : List ProductInterface) : Option ProductIdWithQuantity :=
  products.find? fun p =>
    (activeProducts.find? fun product => product.id == p.productId).isNone

/-! Characterization of getNextDateHavingDay's loop. -/

/-- With enough fuel, the loop lands on the day given by the arithmetic closed
form, keeping the time of day. -/
theorem nextDateLoop_spec (t : Nat) (ht : t < 7) :
    ∀ (fuel : Nat) (d : Date), (t + 7 - (d.day + 1) % 7) % 7 < fuel →
      nextDateLoop t fuel d = ⟨d.day + 1 + (t + 7 - (d.day + 1) % 7) % 7, d.msOfDay⟩ := by
  intro fuel
  induction fuel with
  | zero => intro d h; omega
  | succ n ih =>
    intro d h
    by_cases hc : (d.day + 1) % 7 = t
    · have hcond : (d.addDays 1).getDay = t := by
        simpa [Date.addDays, Date.getDay] using hc
      show (if (d.addDays 1).getDay = t then d.addDays 1 else nextDateLoop t n (d.addDays 1)) = _
      rw [if_pos hcond]
      simp only [Date.addDays, Date.mk.injEq]
      exact ⟨by omega, trivial⟩
    · have hcond : ¬ (d.addDays 1).getDay = t := by
        simpa [Date.addDays, Date.getDay] using hc
      show (if (d.addDays 1).getDay = t then d.addDays 1 else nextDateLoop t n (d.addDays 1)) = _
      rw [if_neg hcond]
      rw [ih (d.addDays 1) (by simp only [Date.addDays]; omega)]
      simp only [Date.addDays, Date.mk.injEq]
      exact ⟨by omega, trivial⟩

/-- getNextDateHavingDay equals the arithmetic closed form for every real
weekday argument. -/
theorem getNextDateHavingDay_eq (now : Date) (t : Nat) (ht : t < 7) :
    getNextDateHavingDay now t = ⟨nextOccurrenceOfWeekday now.day t, now.msOfDay⟩ := by
  have h : (t + 7 - (now.day + 1) % 7) % 7 < NUMBER_OF_DAYS_IN_A_WEEK := by
    simp only [NUMBER_OF_DAYS_IN_A_WEEK]; omega
  simpa [nextOccurrenceOfWeekday] using nextDateLoop_spec t ht NUMBER_OF_DAYS_IN_A_WEEK now h

/-- The lookup table has a row for every real weekday, and every first
available day it stores is itself a real weekday. -/
theorem lookupFirstAvailableDay_total :
    ∀ d, d < 7 → (lookupFirstAvailableDay d).isSome = true ∧
      (lookupFirstAvailableDay d).getD 0 < 7 := by decide


/-! Stage-composition lemmas. -/

/-- Once the contact, product and type-selection stages have succeeded, create
reduces to the admin check and the two lead-time asserts. -/
theorem create_stages (command : NewOrderCommand) (activeProducts : List ProductInterface)
    (closingPeriods : List ClosingPeriodInterface) (isAdmin : Bool) (now : Date)
    (products : List ProductWithQuantity) (sel : OrderTypeSelection)
    (hcontact : bindContactDetails command = .ok ())
    (hproducts : bindProductSelection command.products activeProducts = .ok products)
    (hsel : bindOrderTypeSelection command.type command.pickUpDate command.deliveryDate
      command.deliveryAddress command.reservationDate closingPeriods isAdmin now = .ok sel) :
    Order.create command activeProducts closingPeriods isAdmin now =
      if isAdmin then .ok (builtOrder command products sel)
      else
        match assertPickUpDateIsEqualOrAfterTheFirstAvailableDay sel.type
            command.pickUpDate now with
        | .error e => .error e
        | .ok _ =>
          match assertDeliveryDateIsEqualOrAfterTheFirstAvailableDay sel.type
              command.deliveryDate now with
          | .error e => .error e
          | .ok _ => .ok (builtOrder command products sel) := by
  unfold Order.create
  rw [hcontact, hproducts, hsel]

/-- bindOrderTypeSelection for a pick-up command whose date validation passes. -/
theorem bindOrderTypeSelection_pickUp (pickUpDate deliveryDate : Option Date)
    (deliveryAddress : Option String) (reservationDate : Option Date)
    (closingPeriods : List ClosingPeriodInterface) (isAdmin : Bool) (now : Date)
    (h : assertPickUpDateIsValid OrderType.PICK_UP closingPeriods pickUpDate now = .ok ()) :
    bindOrderTypeSelection (some OrderType.PICK_UP) pickUpDate deliveryDate deliveryAddress
        reservationDate closingPeriods isAdmin now =
      .ok ⟨OrderType.PICK_UP, pickUpDate, none, none, none⟩ := by
  unfold bindOrderTypeSelection assertTypeIsValid assertDeliveryDateIsValid
    assertDeliveryAddressIsValid assertReservationDateIsValid
  simp [h]

/-- bindOrderTypeSelection for a delivery command whose date and address
validations pass. -/
theorem bindOrderTypeSelection_delivery (pickUpDate deliveryDate : Option Date)
    (deliveryAddress : Option String) (reservationDate : Option Date)
    (closingPeriods : List ClosingPeriodInterface) (isAdmin : Bool) (now : Date)
    (hd : assertDeliveryDateIsValid OrderType.DELIVERY closingPeriods deliveryDate now = .ok ())
    (ha : assertDeliveryAddressIsValid OrderType.DELIVERY deliveryAddress = .ok ()) :
    bindOrderTypeSelection (some OrderType.DELIVERY) pickUpDate deliveryDate deliveryAddress
        reservationDate closingPeriods isAdmin now =
      .ok ⟨OrderType.DELIVERY, none, deliveryDate, deliveryAddress, none⟩ := by
  unfold bindOrderTypeSelection assertTypeIsValid assertPickUpDateIsValid
    assertReservationDateIsValid
  simp [hd, ha]

/-- bindOrderTypeSelection for an admin reservation command whose date
validation passes. -/
theorem bindOrderTypeSelection_reservation (pickUpDate deliveryDate : Option Date)
    (deliveryAddress : Option String) (reservationDate : Option Date)
    (closingPeriods : List ClosingPeriodInterface) (now : Date)
    (hr : assertReservationDateIsValid OrderType.RESERVATION closingPeriods reservationDate now
      = .ok ()) :
    bindOrderTypeSelection (some OrderType.RESERVATION) pickUpDate deliveryDate deliveryAddress
        reservationDate closingPeriods true now =
      .ok ⟨OrderType.RESERVATION, none, none, none, reservationDate⟩ := by
  unfold bindOrderTypeSelection assertTypeIsValid assertPickUpDateIsValid
    assertDeliveryDateIsValid assertDeliveryAddressIsValid
  simp [hr]

/-- bindOrderTypeSelection rejects a non-admin reservation with the
InvalidUser error. -/
theorem bindOrderTypeSelection_reservation_nonAdmin (pickUpDate deliveryDate : Option Date)
    (deliveryAddress : Option String) (reservationDate : Option Date)
    (closingPeriods : List ClosingPeriodInterface) (now : Date) :
    bindOrderTypeSelection (some OrderType.RESERVATION) pickUpDate deliveryDate deliveryAddress
        reservationDate closingPeriods false now =
      .error (.invalidUserError .reservationOrderTypeRequiresToBeAdmin) := by
  unfold bindOrderTypeSelection assertTypeIsValid
  simp

/-- The pick-up lead-time assert never fires for a non-pick-up type. -/
theorem assertPickUpLead_skip (type : OrderType) (pickUpDate : Option Date) (now : Date)
    (h : type ≠ OrderType.PICK_UP) :
    assertPickUpDateIsEqualOrAfterTheFirstAvailableDay type pickUpDate now = .ok () := by
  unfold assertPickUpDateIsEqualOrAfterTheFirstAvailableDay
  rw [if_neg h]

/-- The delivery lead-time assert never fires for a non-delivery type. -/
theorem assertDeliveryLead_skip (type : OrderType) (deliveryDate : Option Date) (now : Date)
    (h : type ≠ OrderType.DELIVERY) :
    assertDeliveryDateIsEqualOrAfterTheFirstAvailableDay type deliveryDate now = .ok () := by
  unfold assertDeliveryDateIsEqualOrAfterTheFirstAvailableDay
  rw [if_neg h]

/-- Outside the same-weekday branch, the pick-up lead-time assert compares the
candidate day against the arithmetic next occurrence of the table's first
available weekday and cites the day distance from the effective now. -/
theorem assertPickUpLead_eq (pu now : Date)
    (hnotsame : ¬ (getNumberOfDaysBetweenFirstDateAndSecondDate (effectiveNow now) pu <
        NUMBER_OF_DAYS_IN_A_WEEK ∧ (effectiveNow now).getDay = pu.getDay)) :
    assertPickUpDateIsEqualOrAfterTheFirstAvailableDay OrderType.PICK_UP (some pu) now =
      if pu.day < nextOccurrenceOfWeekday now.day
          (firstAvailableWeekdayWhenPlacedOn (effectiveNow now).getDay) then
        .error (.invalidOrderError (.pickUpDateHasToBeAtLeastDaysAfterNow pu
          (getNumberOfDaysBetweenFirstDateAndSecondDate (effectiveNow now)
            ⟨nextOccurrenceOfWeekday now.day
              (firstAvailableWeekdayWhenPlacedOn (effectiveNow now).getDay), now.msOfDay⟩)))
      else .ok () := by
  have hd7 : (effectiveNow now).getDay < 7 := Nat.mod_lt _ (by norm_num)
  obtain ⟨hsome, hlt⟩ := lookupFirstAvailableDay_total _ hd7
  obtain ⟨t, hteq⟩ := Option.isSome_iff_exists.mp hsome
  have hgetD : firstAvailableWeekdayWhenPlacedOn (effectiveNow now).getDay = t := by
    simp [firstAvailableWeekdayWhenPlacedOn, hteq]
  have ht7 : t < 7 := by rw [hteq] at hlt; simpa using hlt
  unfold assertPickUpDateIsEqualOrAfterTheFirstAvailableDay
  rw [if_pos rfl]
  simp only []
  rw [if_neg hnotsame, hteq]
  simp only [getNextDateHavingDay_eq now t ht7, hgetD, isFirstDateBeforeSecondDateIgnoringHours,
    decide_eq_true_eq]

/-- C1: for a non-admin pick-up create that passes the earlier validation
stages and is not rejected by the same-weekday rule, creation fails with the
"pick-up date has to be at least N days after now" message exactly when the
candidate day is earlier than the next calendar occurrence of the lookup
table's earliest pick-up weekday for the placement weekday, the placement
weekday being now's, shifted to the following day when the hour is 19 or
later; otherwise creation succeeds. -/
theorem pickUp_firstAvailableDay_rule
    (command : NewOrderCommand) (activeProducts : List ProductInterface)
    (closingPeriods : List ClosingPeriodInterface) (now pu : Date)
    (products : List ProductWithQuantity)
    (hcontact : bindContactDetails command = .ok ())
    (hproducts : bindProductSelection command.products activeProducts = .ok products)
    (htype : command.type = some OrderType.PICK_UP)
    (hpu : command.pickUpDate = some pu)
    (hvalid : assertPickUpDateIsValid OrderType.PICK_UP closingPeriods (some pu) now = .ok ())
    (hnotsame : ¬ (getNumberOfDaysBetweenFirstDateAndSecondDate (effectiveNow now) pu < 7 ∧
        (effectiveNow now).getDay = pu.getDay)) :
    ((∃ n, Order.create command activeProducts closingPeriods false now =
        .error (.invalidOrderError (.pickUpDateHasToBeAtLeastDaysAfterNow pu n))) ↔
      pu.day < nextOccurrenceOfWeekday now.day
        (firstAvailableWeekdayWhenPlacedOn (effectiveNow now).getDay)) ∧
    (¬ pu.day < nextOccurrenceOfWeekday now.day
        (firstAvailableWeekdayWhenPlacedOn (effectiveNow now).getDay) →
      ∃ o, Order.create command activeProducts closingPeriods false now = .ok o) := by
  have hsel : bindOrderTypeSelection command.type command.pickUpDate command.deliveryDate
      command.deliveryAddress command.reservationDate closingPeriods false now =
      .ok ⟨OrderType.PICK_UP, some pu, none, none, none⟩ := by
    rw [htype, hpu]
    exact bindOrderTypeSelection_pickUp _ _ _ _ _ _ _ hvalid
  rw [create_stages command activeProducts closingPeriods false now products _
    hcontact hproducts hsel]
  rw [if_neg (by simp : ¬ ((false : Bool) = true))]
  simp only []
  rw [hpu, assertPickUpLead_eq pu now hnotsame]
  by_cases hcond : pu.day < nextOccurrenceOfWeekday now.day
      (firstAvailableWeekdayWhenPlacedOn (effectiveNow now).getDay)
  · rw [if_pos hcond]
    refine ⟨⟨fun _ => hcond, fun _ => ⟨_, rfl⟩⟩, fun hnc => absurd hcond hnc⟩
  · rw [if_neg hcond]
    rw [assertDeliveryLead_skip _ _ _ (by decide : OrderType.PICK_UP ≠ OrderType.DELIVERY)]
    refine ⟨⟨fun ⟨n, hn⟩ => absurd hn (by simp), fun h => absurd h hcond⟩, fun _ => ⟨_, rfl⟩⟩

/-- Witness for C1: placed Monday (day 701) before 7PM, pick-up the next
Tuesday (day 702) is rejected with the at-least-days message. -/
theorem pickUp_firstAvailableDay_rule_witness :
    ∃ n, Order.create ⟨"John", "555", "john@example.com", [⟨1, 1⟩], some OrderType.PICK_UP,
        some ⟨702, 43200000⟩, none, none, none, none⟩ [⟨1, "bread"⟩] [] false ⟨701, 0⟩ =
      .error (.invalidOrderError (.pickUpDateHasToBeAtLeastDaysAfterNow ⟨702, 43200000⟩ n)) :=
  (pickUp_firstAvailableDay_rule
    ⟨"John", "555", "john@example.com", [⟨1, 1⟩], some OrderType.PICK_UP,
      some ⟨702, 43200000⟩, none, none, none, none⟩
    [⟨1, "bread"⟩] [] ⟨701, 0⟩ ⟨702, 43200000⟩ [⟨⟨1, "bread"⟩, 1⟩]
    rfl rfl rfl rfl rfl (by decide)).1.mpr (by decide)

/-- C2: for a non-admin pick-up create that passes the earlier validation
stages, a candidate fewer than 7 days from the effective now and on its exact
weekday is rejected with "cannot be same day as now", while the same weekday 7
or more days out is never rejected by this rule. -/
theorem pickUp_sameWeekday_rule
    (command : NewOrderCommand) (activeProducts : List ProductInterface)
    (closingPeriods : List ClosingPeriodInterface) (now pu : Date)
    (products : List ProductWithQuantity)
    (hcontact : bindContactDetails command = .ok ())
    (hproducts : bindProductSelection command.products activeProducts = .ok products)
    (htype : command.type = some OrderType.PICK_UP)
    (hpu : command.pickUpDate = some pu)
    (hvalid : assertPickUpDateIsValid OrderType.PICK_UP closingPeriods (some pu) now = .ok ()) :
    (getNumberOfDaysBetweenFirstDateAndSecondDate (effectiveNow now) pu < 7 ∧
        (effectiveNow now).getDay = pu.getDay →
      Order.create command activeProducts closingPeriods false now =
        .error (.invalidOrderError (.pickUpDateCannotBeSameDayAsNow pu))) ∧
    ((effectiveNow now).getDay = pu.getDay →
      7 ≤ getNumberOfDaysBetweenFirstDateAndSecondDate (effectiveNow now) pu →
      Order.create command activeProducts closingPeriods false now ≠
        .error (.invalidOrderError (.pickUpDateCannotBeSameDayAsNow pu))) := by
  have hsel : bindOrderTypeSelection command.type command.pickUpDate command.deliveryDate
      command.deliveryAddress command.reservationDate closingPeriods false now =
      .ok ⟨OrderType.PICK_UP, some pu, none, none, none⟩ := by
    rw [htype, hpu]
    exact bindOrderTypeSelection_pickUp _ _ _ _ _ _ _ hvalid
  rw [create_stages command activeProducts closingPeriods false now products _
    hcontact hproducts hsel]
  rw [if_neg (by simp : ¬ ((false : Bool) = true))]
  simp only []
  rw [hpu]
  constructor
  · intro hsame
    have hassert : assertPickUpDateIsEqualOrAfterTheFirstAvailableDay OrderType.PICK_UP
        (some pu) now = .error (.invalidOrderError (.pickUpDateCannotBeSameDayAsNow pu)) := by
      unfold assertPickUpDateIsEqualOrAfterTheFirstAvailableDay
      rw [if_pos rfl]
      simp only [NUMBER_OF_DAYS_IN_A_WEEK]
      rw [if_pos hsame]
    rw [hassert]
  · intro hsameday hge
    have hnotsame : ¬ (getNumberOfDaysBetweenFirstDateAndSecondDate (effectiveNow now) pu < 7 ∧
        (effectiveNow now).getDay = pu.getDay) := by
      rintro ⟨h1, _⟩; omega
    rw [assertPickUpLead_eq pu now hnotsame]
    by_cases hcond : pu.day < nextOccurrenceOfWeekday now.day
        (firstAvailableWeekdayWhenPlacedOn (effectiveNow now).getDay)
    · rw [if_pos hcond]; simp
    · rw [if_neg hcond]
      rw [assertDeliveryLead_skip _ _ _ (by decide : OrderType.PICK_UP ≠ OrderType.DELIVERY)]
      simp

/-- Witness for C2: placed Tuesday (day 702) before 7PM, pick-up the same
Tuesday is rejected with "cannot be same day as now". -/
theorem pickUp_sameWeekday_rule_witness :
    Order.create ⟨"John", "555", "john@example.com", [⟨1, 1⟩], some OrderType.PICK_UP,
        some ⟨702, 54000000⟩, none, none, none, none⟩ [⟨1, "bread"⟩] [] false ⟨702, 36000000⟩ =
      .error (.invalidOrderError (.pickUpDateCannotBeSameDayAsNow ⟨702, 54000000⟩)) :=
  (pickUp_sameWeekday_rule
    ⟨"John", "555", "john@example.com", [⟨1, 1⟩], some OrderType.PICK_UP,
      some ⟨702, 54000000⟩, none, none, none, none⟩
    [⟨1, "bread"⟩] [] ⟨702, 36000000⟩ ⟨702, 54000000⟩ [⟨⟨1, "bread"⟩, 1⟩]
    rfl rfl rfl rfl rfl).1 (by decide)

/-- C3: for a non-admin delivery create that passes the earlier validation
stages, creation fails with "has to be one of the next available Thursday"
exactly when the requested date is fewer than 7 days out, now's weekday index
is at most the delivery date's, and now is past the Tuesday-19:00 cutoff;
otherwise creation succeeds. -/
theorem delivery_sameWeekCutoff_rule
    (command : NewOrderCommand) (activeProducts : List ProductInterface)
    (closingPeriods : List ClosingPeriodInterface) (now dd : Date)
    (products : List ProductWithQuantity)
    (hcontact : bindContactDetails command = .ok ())
    (hproducts : bindProductSelection command.products activeProducts = .ok products)
    (htype : command.type = some OrderType.DELIVERY)
    (hdd : command.deliveryDate = some dd)
    (hvalid : assertDeliveryDateIsValid OrderType.DELIVERY closingPeriods (some dd) now = .ok ())
    (haddr : assertDeliveryAddressIsValid OrderType.DELIVERY command.deliveryAddress = .ok ()) :
    (Order.create command activeProducts closingPeriods false now =
        .error (.invalidOrderError (.deliveryDateHasToBeOneOfTheNextAvailableThursday dd)) ↔
      (getNumberOfDaysBetweenFirstDateAndSecondDate now dd < 7 ∧ now.getDay ≤ dd.getDay) ∧
        (2 < now.getDay ∨ (now.getDay = 2 ∧ 19 ≤ now.getHours))) ∧
    (¬ ((getNumberOfDaysBetweenFirstDateAndSecondDate now dd < 7 ∧ now.getDay ≤ dd.getDay) ∧
        (2 < now.getDay ∨ (now.getDay = 2 ∧ 19 ≤ now.getHours))) →
      ∃ o, Order.create command activeProducts closingPeriods false now = .ok o) := by
  have hsel : bindOrderTypeSelection command.type command.pickUpDate command.deliveryDate
      command.deliveryAddress command.reservationDate closingPeriods false now =
      .ok ⟨OrderType.DELIVERY, none, some dd, command.deliveryAddress, none⟩ := by
    rw [htype, hdd]
    exact bindOrderTypeSelection_delivery _ _ _ _ _ _ _ hvalid haddr
  rw [create_stages command activeProducts closingPeriods false now products _
    hcontact hproducts hsel]
  rw [if_neg (by simp : ¬ ((false : Bool) = true))]
  simp only []
  rw [assertPickUpLead_skip _ _ _ (by decide : OrderType.DELIVERY ≠ OrderType.PICK_UP)]
  simp only []
  rw [hdd]
  have hlead : assertDeliveryDateIsEqualOrAfterTheFirstAvailableDay OrderType.DELIVERY
      (some dd) now =
      if (getNumberOfDaysBetweenFirstDateAndSecondDate now dd < NUMBER_OF_DAYS_IN_A_WEEK ∧
            now.getDay ≤ dd.getDay) ∧
          (MAXIMUM_DAY_FOR_DELIVERY_SAME_WEEK < now.getDay ∨
            (now.getDay = MAXIMUM_DAY_FOR_DELIVERY_SAME_WEEK ∧
              MAXIMUM_HOUR_FOR_DELIVERY_SAME_WEEK ≤ now.getHours)) then
        .error (.invalidOrderError (.deliveryDateHasToBeOneOfTheNextAvailableThursday dd))
      else .ok () := by
    unfold assertDeliveryDateIsEqualOrAfterTheFirstAvailableDay
    rw [if_pos rfl]
  rw [hlead]
  simp only [NUMBER_OF_DAYS_IN_A_WEEK, MAXIMUM_DAY_FOR_DELIVERY_SAME_WEEK,
    MAXIMUM_HOUR_FOR_DELIVERY_SAME_WEEK]
  by_cases hcond : (getNumberOfDaysBetweenFirstDateAndSecondDate now dd < 7 ∧
      now.getDay ≤ dd.getDay) ∧
    (2 < now.getDay ∨ (now.getDay = 2 ∧ 19 ≤ now.getHours))
  · rw [if_pos hcond]
    refine ⟨⟨fun _ => hcond, fun _ => rfl⟩, fun hnc => absurd hcond hnc⟩
  · rw [if_neg hcond]
    refine ⟨⟨fun hn => absurd hn (by simp), fun h => absurd h hcond⟩, fun _ => ⟨_, rfl⟩⟩

/-- Witness for C3: delivery placed Tuesday (day 702) at 19:00 requesting this
week's Thursday (day 704) is rejected with the next-available-Thursday
message. -/
theorem delivery_sameWeekCutoff_rule_witness :
    Order.create ⟨"John", "555", "john@example.com", [⟨1, 1⟩], some OrderType.DELIVERY,
        none, some ⟨704, 43200000⟩, some "12 Main Street", none, none⟩ [⟨1, "bread"⟩] []
        false ⟨702, 68400000⟩ =
      .error (.invalidOrderError
        (.deliveryDateHasToBeOneOfTheNextAvailableThursday ⟨704, 43200000⟩)) :=
  (delivery_sameWeekCutoff_rule
    ⟨"John", "555", "john@example.com", [⟨1, 1⟩], some OrderType.DELIVERY,
      none, some ⟨704, 43200000⟩, some "12 Main Street", none, none⟩
    [⟨1, "bread"⟩] [] ⟨702, 68400000⟩ ⟨704, 43200000⟩ [⟨⟨1, "bread"⟩, 1⟩]
    rfl rfl rfl rfl rfl rfl).1.mpr (by decide)


/-- The date inclusion test of the closing-period loops never fires when the
date lies strictly outside every period. -/
theorem checkClosingPeriods_ok (message : Date → OrderErrorMessage) (d : Date) :
    ∀ closingPeriods : List ClosingPeriodInterface,
      (∀ cp ∈ closingPeriods,
        d.getTime < cp.startDate.getTime ∨ cp.endDate.getTime < d.getTime) →
      checkClosingPeriods message d closingPeriods = .ok ()
  | [], _ => rfl
  | cp :: rest, h => by
    unfold checkClosingPeriods
    rw [if_neg (by have := h cp (by simp); omega)]
    exact checkClosingPeriods_ok message d rest fun c hc => h c (by simp [hc])

/-- C6: a reservation create with isAdmin false fails with the InvalidUser
error (a kind distinct from InvalidOrderError by construction), and the
identical command with isAdmin true and a reservation date that is not past,
falls on Tuesday..Saturday and lies outside every closing period succeeds. -/
theorem reservation_requires_admin
    (command : NewOrderCommand) (activeProducts : List ProductInterface)
    (closingPeriods : List ClosingPeriodInterface) (now rd : Date)
    (products : List ProductWithQuantity)
    (hcontact : bindContactDetails command = .ok ())
    (hproducts : bindProductSelection command.products activeProducts = .ok products)
    (htype : command.type = some OrderType.RESERVATION)
    (hrd : command.reservationDate = some rd)
    (hfuture : ¬ rd.day < now.day)
    (hweekday : 2 ≤ rd.getDay)
    (houtside : ∀ cp ∈ closingPeriods,
      rd.getTime < cp.startDate.getTime ∨ cp.endDate.getTime < rd.getTime) :
    Order.create command activeProducts closingPeriods false now =
      .error (.invalidUserError .reservationOrderTypeRequiresToBeAdmin) ∧
    ∃ o, Order.create command activeProducts closingPeriods true now = .ok o ∧
      o.type = OrderType.RESERVATION := by
  constructor
  · unfold Order.create
    rw [hcontact, hproducts, htype, bindOrderTypeSelection_reservation_nonAdmin]
  · have hrval : assertReservationDateIsValid OrderType.RESERVATION closingPeriods
        (some rd) now = .ok () := by
      unfold assertReservationDateIsValid
      rw [if_pos rfl]
      simp only []
      rw [if_neg (by simp [isFirstDateBeforeSecondDateIgnoringHours]; omega)]
      rw [if_neg (by simp [CLOSING_DAYS]; omega)]
      exact checkClosingPeriods_ok _ rd closingPeriods houtside
    have hsel : bindOrderTypeSelection command.type command.pickUpDate command.deliveryDate
        command.deliveryAddress command.reservationDate closingPeriods true now =
        .ok ⟨OrderType.RESERVATION, none, none, none, some rd⟩ := by
      rw [htype, hrd]
      exact bindOrderTypeSelection_reservation _ _ _ _ _ _ hrval
    rw [create_stages command activeProducts closingPeriods true now products _
      hcontact hproducts hsel]
    rw [if_pos rfl]
    exact ⟨_, rfl, rfl⟩

/-- Witness for C6: a concrete reservation command rejected without admin and
accepted with admin. -/
theorem reservation_requires_admin_witness :
    Order.create ⟨"John", "555", "john@example.com", [⟨1, 1⟩], some OrderType.RESERVATION,
        none, none, none, some ⟨709, 43200000⟩, none⟩ [⟨1, "bread"⟩] [] false ⟨702, 36000000⟩ =
      .error (.invalidUserError .reservationOrderTypeRequiresToBeAdmin) ∧
    ∃ o, Order.create ⟨"John", "555", "john@example.com", [⟨1, 1⟩], some OrderType.RESERVATION,
        none, none, none, some ⟨709, 43200000⟩, none⟩ [⟨1, "bread"⟩] [] true ⟨702, 36000000⟩ =
      .ok o ∧ o.type = OrderType.RESERVATION :=
  reservation_requires_admin
    ⟨"John", "555", "john@example.com", [⟨1, 1⟩], some OrderType.RESERVATION,
      none, none, none, some ⟨709, 43200000⟩, none⟩
    [⟨1, "bread"⟩] [] ⟨702, 36000000⟩ ⟨709, 43200000⟩ [⟨⟨1, "bread"⟩, 1⟩]
    rfl rfl rfl rfl (by decide) (by decide) (by simp)

/-- The date-field invariant of an Order: exactly the fields of its type's
block are populated. -/
def datesMatchType (o : Order) : Prop :=
  match o.type with
  | .PICK_UP => o.pickUpDate ≠ none ∧ o.deliveryDate = none ∧
      o.deliveryAddress = none ∧ o.reservationDate = none
  | .DELIVERY => o.pickUpDate = none ∧ o.deliveryDate ≠ none ∧
      o.deliveryAddress ≠ none ∧ o.reservationDate = none
  | .RESERVATION => o.pickUpDate = none ∧ o.deliveryDate = none ∧
      o.deliveryAddress = none ∧ o.reservationDate ≠ none

/-- The same invariant on a type selection. -/
def selDatesMatchType (sel : OrderTypeSelection) : Prop :=
  match sel.type with
  | .PICK_UP => sel.pickUpDate ≠ none ∧ sel.deliveryDate = none ∧
      sel.deliveryAddress = none ∧ sel.reservationDate = none
  | .DELIVERY => sel.pickUpDate = none ∧ sel.deliveryDate ≠ none ∧
      sel.deliveryAddress ≠ none ∧ sel.reservationDate = none
  | .RESERVATION => sel.pickUpDate = none ∧ sel.deliveryDate = none ∧
      sel.deliveryAddress = none ∧ sel.reservationDate ≠ none

/-- A passing pick-up date validation implies the date is defined. -/
theorem assertPickUpDateIsValid_isSome (closingPeriods : List ClosingPeriodInterface)
    (pickUpDate : Option Date) (now : Date)
    (h : assertPickUpDateIsValid OrderType.PICK_UP closingPeriods pickUpDate now = .ok ()) :
    pickUpDate ≠ none := by
  intro hn; subst hn
  unfold assertPickUpDateIsValid at h
  rw [if_pos rfl] at h
  simp at h

/-- A passing delivery date validation implies the date is defined. -/
theorem assertDeliveryDateIsValid_isSome (closingPeriods : List ClosingPeriodInterface)
    (deliveryDate : Option Date) (now : Date)
    (h : assertDeliveryDateIsValid OrderType.DELIVERY closingPeriods deliveryDate now = .ok ()) :
    deliveryDate ≠ none := by
  intro hn; subst hn
  unfold assertDeliveryDateIsValid at h
  rw [if_pos rfl] at h
  simp at h

/-- A passing delivery address validation implies the address is defined. -/
theorem assertDeliveryAddressIsValid_isSome (deliveryAddress : Option String)
    (h : assertDeliveryAddressIsValid OrderType.DELIVERY deliveryAddress = .ok ()) :
    deliveryAddress ≠ none := by
  intro hn; subst hn
  unfold assertDeliveryAddressIsValid at h
  rw [if_pos ⟨rfl, Or.inl rfl⟩] at h
  simp at h

/-- A passing reservation date validation implies the date is defined. -/
theorem assertReservationDateIsValid_isSome (closingPeriods : List ClosingPeriodInterface)
    (reservationDate : Option Date) (now : Date)
    (h : assertReservationDateIsValid OrderType.RESERVATION closingPeriods reservationDate now
      = .ok ()) :
    reservationDate ≠ none := by
  intro hn; subst hn
  unfold assertReservationDateIsValid at h
  rw [if_pos rfl] at h
  simp at h

/-- A successful type selection satisfies the date-field invariant. -/
theorem bindOrderTypeSelection_dates (type? : Option OrderType) (pud dd : Option Date)
    (da : Option String) (rd : Option Date) (cps : List ClosingPeriodInterface)
    (isAdmin : Bool) (now : Date) (sel : OrderTypeSelection)
    (h : bindOrderTypeSelection type? pud dd da rd cps isAdmin now = .ok sel) :
    selDatesMatchType sel := by
  unfold bindOrderTypeSelection at h
  cases h1 : assertTypeIsValid type? isAdmin with
  | error e => rw [h1] at h; simp at h
  | ok t =>
    rw [h1] at h
    simp only [] at h
    cases h2 : assertPickUpDateIsValid t cps pud now with
    | error e => rw [h2] at h; simp at h
    | ok u2 =>
      cases u2
      rw [h2] at h
      simp only [] at h
      cases h3 : assertDeliveryDateIsValid t cps dd now with
      | error e => rw [h3] at h; simp at h
      | ok u3 =>
        cases u3
        rw [h3] at h
        simp only [] at h
        cases h4 : assertDeliveryAddressIsValid t da with
        | error e => rw [h4] at h; simp at h
        | ok u4 =>
          cases u4
          rw [h4] at h
          simp only [] at h
          cases h5 : assertReservationDateIsValid t cps rd now with
          | error e => rw [h5] at h; simp at h
          | ok u5 =>
            cases u5
            rw [h5] at h
            simp only [] at h
            injection h with h
            subst h
            cases t with
            | PICK_UP =>
              exact ⟨assertPickUpDateIsValid_isSome _ _ _ h2, rfl, rfl, rfl⟩
            | DELIVERY =>
              exact ⟨rfl, assertDeliveryDateIsValid_isSome _ _ _ h3,
                assertDeliveryAddressIsValid_isSome _ h4, rfl⟩
            | RESERVATION =>
              exact ⟨rfl, rfl, rfl, assertReservationDateIsValid_isSome _ _ _ h5⟩

/-- C4: after every successful create and after every successful updateWith,
exactly the date block matching the order's type is populated and the other
date fields (and the delivery address when the type is not DELIVERY) are
null. -/
theorem dateField_matches_type :
    (∀ (command : NewOrderCommand) (activeProducts : List ProductInterface)
      (closingPeriods : List ClosingPeriodInterface) (isAdmin : Bool) (now : Date) (o : Order),
      Order.create command activeProducts closingPeriods isAdmin now = .ok o →
      datesMatchType o) ∧
    (∀ (order : Order) (command : UpdateOrderCommand) (activeProducts : List ProductInterface)
      (closingPeriods : List ClosingPeriodInterface) (now : Date) (o : Order),
      Order.updateWith order command activeProducts closingPeriods now = (o, none) →
      datesMatchType o) := by
  constructor
  · intro command activeProducts closingPeriods isAdmin now o h
    unfold Order.create at h
    cases hc : bindContactDetails command with
    | error e => rw [hc] at h; simp at h
    | ok uc =>
      cases uc
      rw [hc] at h
      simp only [] at h
      cases hp : bindProductSelection command.products activeProducts with
      | error e => rw [hp] at h; simp at h
      | ok ps =>
        rw [hp] at h
        simp only [] at h
        cases hs : bindOrderTypeSelection command.type command.pickUpDate command.deliveryDate
            command.deliveryAddress command.reservationDate closingPeriods isAdmin now with
        | error e => rw [hs] at h; simp at h
        | ok sel =>
          rw [hs] at h
          simp only [] at h
          have hdates := bindOrderTypeSelection_dates _ _ _ _ _ _ _ _ _ hs
          by_cases ha : isAdmin = true
          · rw [if_pos ha] at h
            injection h with h
            subst h
            exact hdates
          · rw [if_neg ha] at h
            cases h1 : assertPickUpDateIsEqualOrAfterTheFirstAvailableDay sel.type
                command.pickUpDate now with
            | error e => rw [h1] at h; simp at h
            | ok u1 =>
              cases u1
              rw [h1] at h
              simp only [] at h
              cases h2 : assertDeliveryDateIsEqualOrAfterTheFirstAvailableDay sel.type
                  command.deliveryDate now with
              | error e => rw [h2] at h; simp at h
              | ok u2 =>
                cases u2
                rw [h2] at h
                simp only [] at h
                injection h with h
                subst h
                exact hdates
  · intro order command activeProducts closingPeriods now o h
    unfold Order.updateWith at h
    by_cases hid : order.id ≠ some command.orderId
    · rw [if_pos hid] at h
      simp at h
    · rw [if_neg hid] at h
      cases hp : bindProductSelection command.products activeProducts with
      | error e => rw [hp] at h; simp at h
      | ok ps =>
        rw [hp] at h
        simp only [] at h
        cases hs : bindOrderTypeSelection command.type command.pickUpDate command.deliveryDate
            command.deliveryAddress command.reservationDate closingPeriods true now with
        | error e => rw [hs] at h; simp at h
        | ok sel =>
          rw [hs] at h
          simp only [Prod.mk.injEq] at h
          obtain ⟨h1, _⟩ := h
          subst h1
          exact bindOrderTypeSelection_dates _ _ _ _ _ _ _ _ _ hs

/-- The ignoring-hours comparison of ClosingPeriod is exactly the calendar-day
comparison. -/
theorem isBeforeNowIgnoringHours_iff (d now : Date) :
    isBeforeNowIgnoringHours d now = true ↔ d.day < now.day := by
  simp only [isBeforeNowIgnoringHours, Date.getTime, decide_eq_true_eq]
  omega

/-- C9: ClosingPeriod.factory.create fails exactly when a date is absent, a
date lies on a strictly past calendar day (today at any hour is accepted), or
the end timestamp is before the start timestamp; otherwise it succeeds and
stores the given dates. -/
theorem closingPeriod_create_spec (command : NewClosingPeriodCommand) (now : Date) :
    ((∃ e, ClosingPeriod.create command now = .error e) ↔
      command.startDate = none ∨ command.endDate = none ∨
      (∃ sd, command.startDate = some sd ∧ sd.day < now.day) ∨
      (∃ ed, command.endDate = some ed ∧ ed.day < now.day) ∨
      (∃ sd ed, command.startDate = some sd ∧ command.endDate = some ed ∧
        ed.getTime < sd.getTime)) ∧
    (∀ sd ed, command.startDate = some sd → command.endDate = some ed →
      ¬ sd.day < now.day → ¬ ed.day < now.day → ¬ ed.getTime < sd.getTime →
      ClosingPeriod.create command now = .ok ⟨sd, ed⟩) := by
  unfold ClosingPeriod.create
  cases hsd : command.startDate with
  | none =>
    refine ⟨⟨fun _ => Or.inl rfl, fun _ => ⟨_, rfl⟩⟩, ?_⟩
    intro sd ed h1
    simp [hsd] at h1
  | some sd =>
    simp only []
    by_cases hsb : sd.day < now.day
    · rw [if_pos ((isBeforeNowIgnoringHours_iff sd now).mpr hsb)]
      refine ⟨⟨fun _ => Or.inr (Or.inr (Or.inl ⟨sd, rfl, hsb⟩)), fun _ => ⟨_, rfl⟩⟩, ?_⟩
      intro sd' ed h1 _ h3
      injection h1 with h1
      subst h1
      exact absurd hsb h3
    · rw [if_neg (fun hc => hsb ((isBeforeNowIgnoringHours_iff sd now).mp hc))]
      cases hed : command.endDate with
      | none =>
        refine ⟨⟨fun _ => Or.inr (Or.inl rfl), fun _ => ⟨_, rfl⟩⟩, ?_⟩
        intro sd' ed h1 h2
        simp [hed] at h2
      | some ed =>
        simp only []
        by_cases heb : ed.day < now.day
        · rw [if_pos ((isBeforeNowIgnoringHours_iff ed now).mpr heb)]
          refine ⟨⟨fun _ => Or.inr (Or.inr (Or.inr (Or.inl ⟨ed, rfl, heb⟩))),
            fun _ => ⟨_, rfl⟩⟩, ?_⟩
          intro sd' ed' h1 h2 _ h4
          injection h2 with h2
          subst h2
          exact absurd heb h4
        · rw [if_neg (fun hc => heb ((isBeforeNowIgnoringHours_iff ed now).mp hc))]
          by_cases hlt : ed.getTime < sd.getTime
          · rw [if_pos hlt]
            refine ⟨⟨fun _ => Or.inr (Or.inr (Or.inr (Or.inr ⟨sd, ed, rfl, rfl, hlt⟩))),
              fun _ => ⟨_, rfl⟩⟩, ?_⟩
            intro sd' ed' h1 h2 _ _ h5
            injection h1 with h1
            injection h2 with h2
            subst h1
            subst h2
            exact absurd hlt h5
          · rw [if_neg hlt]
            constructor
            · constructor
              · rintro ⟨e, he⟩
                simp at he
              · rintro (h | h | ⟨sd', h1, h2⟩ | ⟨ed', h1, h2⟩ | ⟨sd', ed', h1, h2, h3⟩)
                · exact absurd h (by simp)
                · exact absurd h (by simp)
                · injection h1 with h1
                  subst h1
                  exact absurd h2 hsb
                · injection h1 with h1
                  subst h1
                  exact absurd h2 heb
                · injection h1 with h1
                  injection h2 with h2
                  subst h1
                  subst h2
                  exact absurd h3 hlt
            · intro sd' ed' h1 h2 _ _ _
              injection h1 with h1
              injection h2 with h2
              subst h1
              subst h2
              rfl

/-- The quantity loop passes when every quantity is at least 1. -/
theorem checkQuantities_ok :
    ∀ products : List ProductIdWithQuantity,
      (∀ p ∈ products, 1 ≤ p.quantity) → checkQuantities products = .ok ()
  | [], _ => rfl
  | p :: rest, h => by
    unfold checkQuantities
    rw [if_neg (by have := h p (by simp); omega)]
    exact checkQuantities_ok rest fun q hq => h q (by simp [hq])

/-- The resolution map succeeds exactly when every line item's product id
resolves against the active-product list. -/
theorem mapProducts_ok_iff (activeProducts : List ProductInterface) :
    ∀ products : List ProductIdWithQuantity,
      (∃ res, mapProducts activeProducts products = .ok res) ↔
        ∀ p ∈ products, ∃ product ∈ activeProducts, product.id = p.productId
  | [] => by simp [mapProducts]
  | p :: rest => by
    unfold mapProducts toProductWithQuantity
    cases hf : activeProducts.find? (fun product => product.id == p.productId) with
    | none =>
      simp only []
      constructor
      · rintro ⟨res, hres⟩
        exact absurd hres (by simp)
      · intro hall
        obtain ⟨product, hmem, hide⟩ := hall p (by simp)
        have := List.find?_eq_none.mp hf product hmem
        simp [hide] at this
    | some product =>
      simp only []
      have hmem := List.mem_of_find?_eq_some hf
      have hide : product.id = p.productId := by
        have := List.find?_some hf
        simpa using this
      constructor
      · rintro ⟨res, hres⟩
        intro q hq
        rcases List.mem_cons.mp hq with hq | hq
        · exact ⟨product, hmem, by rw [hide, hq]⟩
        · cases hrest : mapProducts activeProducts rest with
          | error e => rw [hrest] at hres; exact absurd hres (by simp)
          | ok res' =>
            exact ((mapProducts_ok_iff activeProducts rest).mp ⟨res', hrest⟩) q hq
      · intro hall
        obtain ⟨res', hres'⟩ := (mapProducts_ok_iff activeProducts rest).mpr
          fun q hq => hall q (by simp [hq])
        exact ⟨_, by rw [hres']⟩

/-- The resolution map fails on the first unresolved product id, citing it. -/
theorem mapProducts_error_notFound (activeProducts : List ProductInterface) :
    ∀ (products : List ProductIdWithQuantity) (p₀ : ProductIdWithQuantity),
      firstUnresolvedProduct products activeProducts = some p₀ →
      mapProducts activeProducts products =
        .error (.invalidOrderError (.productWithIdNotFound p₀.productId))
  | [], p₀ => by simp [firstUnresolvedProduct]
  | p :: rest, p₀ => by
    intro h
    unfold firstUnresolvedProduct at h
    rw [List.find?_cons] at h
    unfold mapProducts toProductWithQuantity
    cases hf : activeProducts.find? (fun product => product.id == p.productId) with
    | none =>
      rw [hf] at h
      simp only [Option.isNone_none] at h
      injection h with h
      subst h
      rfl
    | some product =>
      rw [hf] at h
      simp only [Option.isNone_some] at h
      have hrest : firstUnresolvedProduct rest activeProducts = some p₀ := h
      rw [mapProducts_error_notFound activeProducts rest p₀ hrest]

/-- C8: the product-validation stage rejects an empty list with the
at-least-one-product message; for a non-empty list whose quantities are all at
least 1 it succeeds exactly when every product id resolves, and it fails
citing the first unresolved id. -/
theorem product_validation_stage :
    (∀ activeProducts : List ProductInterface,
      bindProductSelection [] activeProducts =
        .error (.invalidOrderError .anOrderMustHaveAtLeastOneProduct)) ∧
    (∀ (products : List ProductIdWithQuantity) (activeProducts : List ProductInterface),
      products ≠ [] → (∀ p ∈ products, 1 ≤ p.quantity) →
      ((∃ res, bindProductSelection products activeProducts = .ok res) ↔
        ∀ p ∈ products, ∃ product ∈ activeProducts, product.id = p.productId) ∧
      (∀ p₀, firstUnresolvedProduct products activeProducts = some p₀ →
        bindProductSelection products activeProducts =
          .error (.invalidOrderError (.productWithIdNotFound p₀.productId)))) := by
  constructor
  · intro activeProducts
    rfl
  · intro products activeProducts hne hq
    have hbind : bindProductSelection products activeProducts =
        mapProducts activeProducts products := by
      unfold bindProductSelection assertProductsAreValid
      rw [if_neg (by simpa using hne)]
      rw [checkQuantities_ok products hq]
    rw [hbind]
    exact ⟨mapProducts_ok_iff activeProducts products,
      fun p₀ h => mapProducts_error_notFound activeProducts products p₀ h⟩

/-- The errors only the non-admin create path can raise: the InvalidUser
authorization error and the two lead-time rules' messages. -/
def isLeadTimeOrUserError : DomainError → Bool
  | .invalidUserError _ => true
  | .invalidOrderError (.pickUpDateHasToBeAtLeastDaysAfterNow _ _) => true
  | .invalidOrderError (.pickUpDateCannotBeSameDayAsNow _) => true
  | .invalidOrderError (.deliveryDateHasToBeOneOfTheNextAvailableThursday _) => true
  | _ => false

/-- The quantity loop raises only quantity errors. -/
theorem checkQuantities_error :
    ∀ (products : List ProductIdWithQuantity) (e : DomainError),
      checkQuantities products = .error e → isLeadTimeOrUserError e = false
  | [], e => by simp [checkQuantities]
  | p :: rest, e => by
    intro h
    unfold checkQuantities at h
    split at h
    · injection h with h
      subst h
      rfl
    · exact checkQuantities_error rest e h

/-- The resolution map raises only not-found errors. -/
theorem mapProducts_error_shape (activeProducts : List ProductInterface) :
    ∀ (products : List ProductIdWithQuantity) (e : DomainError),
      mapProducts activeProducts products = .error e → isLeadTimeOrUserError e = false
  | [], e => by simp [mapProducts]
  | p :: rest, e => by
    intro h
    unfold mapProducts toProductWithQuantity at h
    cases hf : activeProducts.find? (fun product => product.id == p.productId) with
    | none =>
      rw [hf] at h
      simp only [] at h
      injection h with h
      subst h
      rfl
    | some product =>
      rw [hf] at h
      simp only [] at h
      cases hrest : mapProducts activeProducts rest with
      | error e2 =>
        rw [hrest] at h
        simp only [] at h
        injection h with h
        subst h
        exact mapProducts_error_shape activeProducts rest e2 hrest
      | ok res => rw [hrest] at h; simp at h

/-- The product-selection stage raises only product errors. -/
theorem bindProductSelection_error_shape (products : List ProductIdWithQuantity)
    (activeProducts : List ProductInterface) (e : DomainError)
    (h : bindProductSelection products activeProducts = .error e) :
    isLeadTimeOrUserError e = false := by
  unfold bindProductSelection at h
  cases ha : assertProductsAreValid products with
  | error e2 =>
    rw [ha] at h
    simp only [] at h
    injection h with h
    subst h
    unfold assertProductsAreValid at ha
    split at ha
    · injection ha with ha
      subst ha
      rfl
    · exact checkQuantities_error products e2 ha
  | ok u =>
    cases u
    rw [ha] at h
    simp only [] at h
    exact mapProducts_error_shape activeProducts products e h

/-- The closing-period loop raises only its caller's message. -/
theorem checkClosingPeriods_error (message : Date → OrderErrorMessage) (d : Date) :
    ∀ (closingPeriods : List ClosingPeriodInterface) (e : DomainError),
      checkClosingPeriods message d closingPeriods = .error e →
      e = .invalidOrderError (message d)
  | [], e => by simp [checkClosingPeriods]
  | cp :: rest, e => by
    intro h
    unfold checkClosingPeriods at h
    split at h
    · injection h with h
      exact h.symm
    · exact checkClosingPeriods_error message d rest e h

/-- With the admin flag set, the type validation raises only the
type-undefined error. -/
theorem assertTypeIsValid_admin_error (type? : Option OrderType) (e : DomainError)
    (h : assertTypeIsValid type? true = .error e) :
    e = .invalidOrderError .orderTypeHasToBeDefined := by
  unfold assertTypeIsValid at h
  cases type? with
  | none =>
    simp only [] at h
    injection h with h
    exact h.symm
  | some t =>
    simp only [] at h
    rw [if_neg (by simp)] at h
    simp at h

/-- The pick-up date validation raises none of the create-only errors. -/
theorem assertPickUpDateIsValid_error_shape (type : OrderType)
    (closingPeriods : List ClosingPeriodInterface) (pickUpDate : Option Date) (now : Date)
    (e : DomainError) (h : assertPickUpDateIsValid type closingPeriods pickUpDate now = .error e) :
    isLeadTimeOrUserError e = false := by
  unfold assertPickUpDateIsValid at h
  split at h
  · cases pickUpDate with
    | none =>
      simp only [] at h
      injection h with h
      subst h
      rfl
    | some d =>
      simp only [] at h
      split at h
      · injection h with h
        subst h
        rfl
      · split at h
        · injection h with h
          subst h
          rfl
        · rw [checkClosingPeriods_error _ d closingPeriods e h]
          rfl
  · simp at h

/-- The delivery date validation raises none of the create-only errors. -/
theorem assertDeliveryDateIsValid_error_shape (type : OrderType)
    (closingPeriods : List ClosingPeriodInterface) (deliveryDate : Option Date) (now : Date)
    (e : DomainError)
    (h : assertDeliveryDateIsValid type closingPeriods deliveryDate now = .error e) :
    isLeadTimeOrUserError e = false := by
  unfold assertDeliveryDateIsValid at h
  split at h
  · cases deliveryDate with
    | none =>
      simp only [] at h
      injection h with h
      subst h
      rfl
    | some d =>
      simp only [] at h
      split at h
      · injection h with h
        subst h
        rfl
      · cases hc : checkClosingPeriods .deliveryDateHasToBeOutsideClosingPeriods d
            closingPeriods with
        | error e2 =>
          rw [hc] at h
          simp only [] at h
          injection h with h
          subst h
          rw [checkClosingPeriods_error _ d closingPeriods e2 hc]
          rfl
        | ok u =>
          cases u
          rw [hc] at h
          simp only [] at h
          split at h
          · injection h with h
            subst h
            rfl
          · simp at h
  · simp at h

/-- The delivery address validation raises only the address-undefined error. -/
theorem assertDeliveryAddressIsValid_error_shape (type : OrderType)
    (deliveryAddress : Option String) (e : DomainError)
    (h : assertDeliveryAddressIsValid type deliveryAddress = .error e) :
    isLeadTimeOrUserError e = false := by
  unfold assertDeliveryAddressIsValid at h
  split at h
  · injection h with h
    subst h
    rfl
  · simp at h

/-- The reservation date validation raises none of the create-only errors. -/
theorem assertReservationDateIsValid_error_shape (type : OrderType)
    (closingPeriods : List ClosingPeriodInterface) (reservationDate : Option Date) (now : Date)
    (e : DomainError)
    (h : assertReservationDateIsValid type closingPeriods reservationDate now = .error e) :
    isLeadTimeOrUserError e = false := by
  unfold assertReservationDateIsValid at h
  split at h
  · cases reservationDate with
    | none =>
      simp only [] at h
      injection h with h
      subst h
      rfl
    | some d =>
      simp only [] at h
      split at h
      · injection h with h
        subst h
        rfl
      · split at h
        · injection h with h
          subst h
          rfl
        · rw [checkClosingPeriods_error _ d closingPeriods e h]
          rfl
  · simp at h

/-- With the admin flag set, the type-selection stage raises none of the
create-only errors. -/
theorem bindOrderTypeSelection_admin_error_shape (type? : Option OrderType)
    (pud dd : Option Date) (da : Option String) (rd : Option Date)
    (cps : List ClosingPeriodInterface) (now : Date) (e : DomainError)
    (h : bindOrderTypeSelection type? pud dd da rd cps true now = .error e) :
    isLeadTimeOrUserError e = false := by
  unfold bindOrderTypeSelection at h
  cases h1 : assertTypeIsValid type? true with
  | error e1 =>
    rw [h1] at h
    simp only [] at h
    injection h with h
    subst h
    rw [assertTypeIsValid_admin_error type? e1 h1]
    rfl
  | ok t =>
    rw [h1] at h
    simp only [] at h
    cases h2 : assertPickUpDateIsValid t cps pud now with
    | error e2 =>
      rw [h2] at h
      simp only [] at h
      injection h with h
      subst h
      exact assertPickUpDateIsValid_error_shape t cps pud now e2 h2
    | ok u2 =>
      cases u2
      rw [h2] at h
      simp only [] at h
      cases h3 : assertDeliveryDateIsValid t cps dd now with
      | error e3 =>
        rw [h3] at h
        simp only [] at h
        injection h with h
        subst h
        exact assertDeliveryDateIsValid_error_shape t cps dd now e3 h3
      | ok u3 =>
        cases u3
        rw [h3] at h
        simp only [] at h
        cases h4 : assertDeliveryAddressIsValid t da with
        | error e4 =>
          rw [h4] at h
          simp only [] at h
          injection h with h
          subst h
          exact assertDeliveryAddressIsValid_error_shape t da e4 h4
        | ok u4 =>
          cases u4
          rw [h4] at h
          simp only [] at h
          cases h5 : assertReservationDateIsValid t cps rd now with
          | error e5 =>
            rw [h5] at h
            simp only [] at h
            injection h with h
            subst h
            exact assertReservationDateIsValid_error_shape t cps rd now e5 h5
          | ok u5 =>
            cases u5
            rw [h5] at h
            simp at h

/-- C7: updateWith always behaves as an admin edit: the contact fields are
untouched, it never raises InvalidUser (so RESERVATION is always permitted),
and it never raises the non-admin first-available-day or same-week-cutoff
messages. -/
theorem updateWith_behaves_as_admin (order : Order) (command : UpdateOrderCommand)
    (activeProducts : List ProductInterface) (closingPeriods : List ClosingPeriodInterface)
    (now : Date) :
    ((Order.updateWith order command activeProducts closingPeriods now).1.clientName =
        order.clientName ∧
      (Order.updateWith order command activeProducts closingPeriods now).1.clientPhoneNumber =
        order.clientPhoneNumber ∧
      (Order.updateWith order command activeProducts closingPeriods now).1.clientEmailAddress =
        order.clientEmailAddress) ∧
    (∀ m, (Order.updateWith order command activeProducts closingPeriods now).2 ≠
      some (.invalidUserError m)) ∧
    (∀ d n, (Order.updateWith order command activeProducts closingPeriods now).2 ≠
      some (.invalidOrderError (.pickUpDateHasToBeAtLeastDaysAfterNow d n))) ∧
    (∀ d, (Order.updateWith order command activeProducts closingPeriods now).2 ≠
      some (.invalidOrderError (.pickUpDateCannotBeSameDayAsNow d))) ∧
    (∀ d, (Order.updateWith order command activeProducts closingPeriods now).2 ≠
      some (.invalidOrderError (.deliveryDateHasToBeOneOfTheNextAvailableThursday d))) := by
  unfold Order.updateWith
  by_cases hid : order.id ≠ some command.orderId
  · rw [if_pos hid]
    exact ⟨⟨rfl, rfl, rfl⟩, fun m hc => by simp at hc, fun d n hc => by simp at hc,
      fun d hc => by simp at hc, fun d hc => by simp at hc⟩
  · rw [if_neg hid]
    cases hp : bindProductSelection command.products activeProducts with
    | error e =>
      have hshape := bindProductSelection_error_shape _ _ _ hp
      refine ⟨⟨rfl, rfl, rfl⟩, ?_, ?_, ?_, ?_⟩
      · intro m hc
        injection hc with hc
        subst hc
        simp [isLeadTimeOrUserError] at hshape
      · intro d n hc
        injection hc with hc
        subst hc
        simp [isLeadTimeOrUserError] at hshape
      · intro d hc
        injection hc with hc
        subst hc
        simp [isLeadTimeOrUserError] at hshape
      · intro d hc
        injection hc with hc
        subst hc
        simp [isLeadTimeOrUserError] at hshape
    | ok ps =>
      cases hs : bindOrderTypeSelection command.type command.pickUpDate command.deliveryDate
          command.deliveryAddress command.reservationDate closingPeriods true now with
      | error e =>
        have hshape := bindOrderTypeSelection_admin_error_shape _ _ _ _ _ _ _ _ hs
        refine ⟨⟨rfl, rfl, rfl⟩, ?_, ?_, ?_, ?_⟩
        · intro m hc
          injection hc with hc
          subst hc
          simp [isLeadTimeOrUserError] at hshape
        · intro d n hc
          injection hc with hc
          subst hc
          simp [isLeadTimeOrUserError] at hshape
        · intro d hc
          injection hc with hc
          subst hc
          simp [isLeadTimeOrUserError] at hshape
        · intro d hc
          injection hc with hc
          subst hc
          simp [isLeadTimeOrUserError] at hshape
      | ok sel =>
        exact ⟨⟨rfl, rfl, rfl⟩, fun m hc => by simp at hc, fun d n hc => by simp at hc,
          fun d hc => by simp at hc, fun d hc => by simp at hc⟩

/-- Counterexample to the claim that updateWith leaves every field unchanged
whenever it raises an error: with a matching id, a resolvable product list and
an undefined type, updateWith raises the type error after having already
overwritten the products field. -/
theorem updateWith_not_atomic_counterexample :
    (Order.updateWith
        ⟨some 1, "n", "p", "e", [], OrderType.PICK_UP, some ⟨702, 0⟩, none, none, none, none⟩
        ⟨1, [⟨1, 1⟩], none, none, none, none, none, none⟩
        [⟨1, "bread"⟩] [] ⟨701, 0⟩).2 =
      some (.invalidOrderError .orderTypeHasToBeDefined) ∧
    (Order.updateWith
        ⟨some 1, "n", "p", "e", [], OrderType.PICK_UP, some ⟨702, 0⟩, none, none, none, none⟩
        ⟨1, [⟨1, 1⟩], none, none, none, none, none, none⟩
        [⟨1, "bread"⟩] [] ⟨701, 0⟩).1.products ≠
      (⟨some 1, "n", "p", "e", [], OrderType.PICK_UP, some ⟨702, 0⟩, none, none, none,
        none⟩ : Order).products := by
  exact ⟨rfl, by decide⟩

/-- C5 amended: when updateWith raises an error, every field except products
is unchanged; products is either unchanged or already overwritten with the
command's resolved product list (the latter only when product resolution
succeeded and a later type/date validation failed); on an id mismatch or a
product-stage failure nothing at all has changed. -/
theorem updateWith_mutation_frame (order : Order) (command : UpdateOrderCommand)
    (activeProducts : List ProductInterface) (closingPeriods : List ClosingPeriodInterface)
    (now : Date) (o' : Order) (e : DomainError)
    (h : Order.updateWith order command activeProducts closingPeriods now = (o', some e)) :
    o'.id = order.id ∧ o'.clientName = order.clientName ∧
    o'.clientPhoneNumber = order.clientPhoneNumber ∧
    o'.clientEmailAddress = order.clientEmailAddress ∧
    o'.type = order.type ∧ o'.pickUpDate = order.pickUpDate ∧
    o'.deliveryDate = order.deliveryDate ∧ o'.deliveryAddress = order.deliveryAddress ∧
    o'.reservationDate = order.reservationDate ∧ o'.note = order.note ∧
    (o'.products = order.products ∨
      bindProductSelection command.products activeProducts = .ok o'.products) ∧
    ((order.id ≠ some command.orderId ∨
        (∃ e2, bindProductSelection command.products activeProducts = .error e2)) →
      o'.products = order.products) := by
  unfold Order.updateWith at h
  by_cases hid : order.id ≠ some command.orderId
  · rw [if_pos hid] at h
    simp only [Prod.mk.injEq] at h
    obtain ⟨h1, _⟩ := h
    subst h1
    exact ⟨rfl, rfl, rfl, rfl, rfl, rfl, rfl, rfl, rfl, rfl, Or.inl rfl, fun _ => rfl⟩
  · rw [if_neg hid] at h
    cases hp : bindProductSelection command.products activeProducts with
    | error e2 =>
      rw [hp] at h
      simp only [Prod.mk.injEq] at h
      obtain ⟨h1, _⟩ := h
      subst h1
      exact ⟨rfl, rfl, rfl, rfl, rfl, rfl, rfl, rfl, rfl, rfl, Or.inl rfl, fun _ => rfl⟩
    | ok ps =>
      rw [hp] at h
      simp only [] at h
      cases hs : bindOrderTypeSelection command.type command.pickUpDate command.deliveryDate
          command.deliveryAddress command.reservationDate closingPeriods true now with
      | error e3 =>
        rw [hs] at h
        simp only [Prod.mk.injEq] at h
        obtain ⟨h1, _⟩ := h
        subst h1
        refine ⟨rfl, rfl, rfl, rfl, rfl, rfl, rfl, rfl, rfl, rfl, Or.inr (by simp [hp]), ?_⟩
        rintro (hcontra | ⟨e2, hcontra⟩)
        · exact absurd (not_not.mp hid) hcontra
        · simp [hp] at hcontra
      | ok sel =>
        rw [hs] at h
        simp only [Prod.mk.injEq] at h
        obtain ⟨_, hnone⟩ := h
        exact absurd hnone (by simp)

/-- Witness for the amended C5: a concrete id-mismatched update raises an
error with the target order unchanged. -/
theorem updateWith_mutation_frame_witness :
    (⟨some 1, "n", "p", "e", [], OrderType.PICK_UP, some ⟨702, 0⟩, none, none, none,
        none⟩ : Order).id =
      (⟨some 1, "n", "p", "e", [], OrderType.PICK_UP, some ⟨702, 0⟩, none, none, none,
        none⟩ : Order).id :=
  (updateWith_mutation_frame
    ⟨some 1, "n", "p", "e", [], OrderType.PICK_UP, some ⟨702, 0⟩, none, none, none, none⟩
    ⟨2, [], none, none, none, none, none, none⟩ [] [] ⟨701, 0⟩
    ⟨some 1, "n", "p", "e", [], OrderType.PICK_UP, some ⟨702, 0⟩, none, none, none, none⟩
    (.invalidOrderError (.existingOrderIdDoesNotMatchCommandOrderId (some 1) 2)) rfl).1

/-- C10: for every real weekday argument the getNextDateHavingDay loop exits
within 7 iterations at the next strictly-future date with that weekday (stated
through the fueled embedding and its closed form); the lookup table has a row
for every real weekday, so the lookup feeding the loop is always defined; and
for an argument that is no weekday (JavaScript undefined, had a row been
missing) the loop's exit condition fails at every iteration, so the JavaScript
do-while would never terminate. -/
theorem getNextDateHavingDay_termination :
    (∀ (now : Date) (t : Nat), t < 7 →
      (getNextDateHavingDay now t).getDay = t ∧
      now.day < (getNextDateHavingDay now t).day ∧
      (getNextDateHavingDay now t).day ≤ now.day + 7 ∧
      (∀ m, now.day < m → m % 7 = t → (getNextDateHavingDay now t).day ≤ m)) ∧
    (∀ d, d < 7 → (lookupFirstAvailableDay d).isSome = true) ∧
    (∀ t, 7 ≤ t → ∀ (d : Date) (k : Nat), (d.addDays (k + 1)).getDay ≠ t) := by
  refine ⟨?_, fun d hd => (lookupFirstAvailableDay_total d hd).1, ?_⟩
  · intro now t ht
    rw [getNextDateHavingDay_eq now t ht]
    simp only [Date.getDay, nextOccurrenceOfWeekday]
    exact ⟨by omega, by omega, by omega, fun m h1 h2 => by omega⟩
  · intro t ht d k
    simp only [Date.addDays, Date.getDay]
    omega

end LePanivore
